import Mathlib

/-!
Verification of the LinkedIn Data Explorer frontend (frontend/app.py).

The file shallowly embeds the response-rendering pipeline of the Streamlit
app: the decoded JSON values, the safe_get helper, the per-tab response
handlers that turn a decoded payload into the widgets shown on screen, and
the button-press triggers that decide whether an HTTP request is issued.
Python dictionaries decoded from JSON always have string keys, sequences are
lists, and numbers are modelled as rationals.
-/

/-- A decoded JSON value as produced by response.json in the app. -/
inductive Json where
  | null
  | bool (b : Bool)
  | num (q : ℚ)
  | str (s : String)
  | arr (xs : List Json)
  | obj (kvs : List (String × Json))

/-- A path segment passed to safe_get: either a string key or an integer
index, matching the two kinds of literals the call sites use, for example
the segment list media, items, 0, url at app.py line 225. -/
inductive JKey where
  | s (k : String)
  | i (n : Int)

/-- First-match association lookup, the model of indexing a decoded JSON
object by a string key. Decoded Python dicts have unique keys, so first
match is exact. -/
def lookupKey (kvs : List (String × Json)) (k : String) : Option Json :=
  match kvs with
  | [] => none
  | (k1, v) :: rest => if k1 = k then some v else lookupKey rest k

/-- One step of safe_get: the Python test is
isinstance(d, dict) and key in d, followed by the access d of key.
A decoded JSON object is the only dict, and its keys are strings, so an
integer segment never passes the membership test, and a sequence never
passes the isinstance test. -/
def jstep (d : Json) (key : JKey) : Option Json :=
  match d, key with
  | Json.obj kvs, JKey.s k => lookupKey kvs k
  | _, _ => none

/-- safe_get from app.py lines 26 to 33: walk the segments left to right,
descending while the current value is a dict containing the segment, and
returning the default at the first failing segment. An exhausted segment
list returns the current value. -/
def safe_get (d : Json) (keys : List JKey) (dflt : Json) : Json :=
  match keys with
  | [] => d
  | key :: rest =>
    match jstep d key with
    | some v => safe_get v rest dflt
    | none => dflt

/-- Pure descent along a path with no default: some leaf when every segment
resolves, none at the first failure. Used to state properties of safe_get. -/
def resolve (d : Json) (keys : List JKey) : Option Json :=
  match keys with
  | [] => some d
  | key :: rest =>
    match jstep d key with
    | some v => resolve v rest
    | none => none

/-- Python truthiness of a decoded JSON value, as used by the bare if tests
in the app: None, False, zero, the empty string, the empty list and the
empty dict are falsy, everything else truthy. -/
def pyTruthy : Json → Bool
  | Json.null => false
  | Json.bool b => b
  | Json.num q => if q = 0 then false else true
  | Json.str s => if s = "" then false else true
  | Json.arr xs => !xs.isEmpty
  | Json.obj kvs => !kvs.isEmpty

/-- The dict method get with a default, usable once the receiver is known to
be a decoded JSON object; on any other receiver the Python attribute lookup
raises, which the handlers model separately. -/
def dictGet (kvs : List (String × Json)) (k : String) (dflt : Json) : Json :=
  (lookupKey kvs k).getD dflt

/-- Python len restricted to decoded JSON values: defined on strings,
lists and dicts, and a raised TypeError, modelled as none, elsewhere. -/
def pyLen : Json → Option Nat
  | Json.str s => some s.length
  | Json.arr xs => some xs.length
  | Json.obj kvs => some kvs.length
  | _ => none

/-- The slice text up to 150 applied to a Python string; Python slices by
code point, matching a take on the character list. -/
def pySlice150 (s : String) : String := (s.toList.take 150).asString

/-- The displayed text of a post, app.py lines 100 and 220: the slice up to
150 characters with three dots appended unconditionally. -/
def pyTrunc (s : String) : String := pySlice150 s ++ "..."

/-- The values Python round accepts among decoded JSON values: numbers and
booleans; anything else raises. -/
def asRoundable : Json → Option ℚ
  | Json.num q => some q
  | Json.bool b => some (if b then 1 else 0)
  | _ => none

/-- Round half to even at integer precision, the semantics of Python round. -/
def roundHalfEven (q : ℚ) : ℤ :=
  let f := ⌊q⌋
  let r := q - f
  if r < 1/2 then f else if r > 1/2 then f + 1 else if f % 2 = 0 then f else f + 1

/-- Python round to two decimal places over the rational model of the
payload numbers. -/
def round2 (q : ℚ) : ℚ := (roundHalfEven (q * 100) : ℚ) / 100

/-- A string values that Python sees as a str; anything else makes the slice
plus string concatenation at the Text columns raise. -/
def asStr : Json → Option String
  | Json.str s => some s
  | _ => none

/-- One displayed table row: column name to cell value, in column order. -/
abbrev Row := List (String × Json)

/-- The cell of a row under a column name. -/
def getCol (r : Row) (c : String) : Option Json := lookupKey r c

/-- Map a row builder over the records of a payload list; none as soon as
one record raises, modelling the exception escaping the comprehension. -/
def mapRows (f : Json → Option Row) : List Json → Option (List Row)
  | [] => some []
  | c :: rest =>
    match f c, mapRows f rest with
    | some r, some rs => some (r :: rs)
    | _, _ => none

/-- The row built for one comment, app.py lines 48 to 54. A record that is
not a dict makes the method call text get raise, and a replies value
without len raises, both modelled as none. -/
def commentRow : Json → Option Row
  | c@(Json.obj kvs) =>
    match pyLen (dictGet kvs "replies" (Json.arr [])) with
    | some n =>
      some [("Author", safe_get c [JKey.s "author", JKey.s "name"] (Json.str "")),
        ("Comment", dictGet kvs "text" (Json.str "")),
        ("Reactions", safe_get c [JKey.s "stats", JKey.s "total_reactions"] (Json.num 0)),
        ("Replies", Json.num (n : ℚ)),
        ("Date", safe_get c [JKey.s "posted_at", JKey.s "date"] (Json.str ""))]
    | none => none
  | _ => none

/-- The row built for one user post, app.py lines 98 to 104; the Text cell
slices the text to 150 characters and appends three dots. -/
def userPostRow : Json → Option Row
  | p@(Json.obj kvs) =>
    match asStr (dictGet kvs "text" (Json.str "")) with
    | some t =>
      some [("Date", safe_get p [JKey.s "posted_at", JKey.s "date"] (Json.str "")),
        ("Text", Json.str (pyTrunc t)),
        ("Reactions", safe_get p [JKey.s "stats", JKey.s "total_reactions"] (Json.num 0)),
        ("Comments", safe_get p [JKey.s "stats", JKey.s "comments"] (Json.num 0)),
        ("URL", dictGet kvs "url" (Json.str ""))]
    | none => none
  | _ => none

/-- The path of the Image cell and of the image loop, app.py lines 225 and
240: media, items, index 0, url. -/
def imagePath : List JKey := [JKey.s "media", JKey.s "items", JKey.i 0, JKey.s "url"]

/-- The row built for one company post, app.py lines 217 to 226. -/
def companyPostRow : Json → Option Row
  | p@(Json.obj kvs) =>
    match asStr (dictGet kvs "text" (Json.str "")) with
    | some t =>
      some [("Date", safe_get p [JKey.s "posted_at", JKey.s "date"] (Json.str "")),
        ("Author", safe_get p [JKey.s "author", JKey.s "name"] (Json.str "")),
        ("Text", Json.str (pyTrunc t)),
        ("Reactions", safe_get p [JKey.s "stats", JKey.s "total_reactions"] (Json.num 0)),
        ("Comments", safe_get p [JKey.s "stats", JKey.s "comments"] (Json.num 0)),
        ("Reposts", safe_get p [JKey.s "stats", JKey.s "reposts"] (Json.num 0)),
        ("Post URL", dictGet kvs "post_url" (Json.str "")),
        ("Image", safe_get p imagePath (Json.str ""))]
    | none => none
  | _ => none

/-- The images displayed by the loop at app.py lines 239 to 242: one image
per post whose extracted url is truthy. -/
def shownImages (ps : List Json) : List Json :=
  ps.filterMap (fun p =>
    let u := safe_get p imagePath (Json.str "")
    if pyTruthy u then some u else none)

/-- The company page fields extracted on the success branch of the company
tab, app.py lines 173 to 193, kept as raw values; turning them into text is
rendering. -/
structure CompanyPage where
  logo : Json
  name : Json
  blurb : Json
  website : Json
  linkedin : Json
  followers : Json
  employees : Json
  hqLine1 : Json
  hqCity : Json
  hqState : Json
  hqCountry : Json
  industries : Json

/-- The two column top commenters table of the analytics tab: column pair
and the raw row list handed to the table widget. -/
structure TopTable where
  col1 : String
  col2 : String
  rows : List Json

/-- The histogram section of the analytics tab: either the bar chart over
the key and value pairs of the histogram dict, or the no data warning. -/
inductive HistSection where
  | chart (c1 c2 : String) (rows : List (String × Json))
  | noData (msg : String)

/-- The analytics summary view, app.py lines 124 to 156: the three metrics,
the top commenters table, and the histogram section. -/
structure AnalyticsView where
  totalComments : Json
  uniqueCommenters : Json
  avgReactions : ℚ
  top : TopTable
  hist : HistSection

/-- What one tab shows after a decoded response is handled. err is a call
of the error widget with the given value; warn is the warning widget with a
fixed message; exn is the except arm, which shows the error widget with an
interpolated exception message; the remaining constructors are the success
renderings of the respective tabs. -/
inductive View where
  | err (msg : Json)
  | warn (msg : String)
  | exn
  | table (rows : List Row)
  | companyPosts (rows : List Row) (images : List Json)
  | analytics (av : AnalyticsView)
  | company (page : CompanyPage)

/-- The comments tab response handling, app.py lines 45 to 58: extract the
comment list with safe_get, build the table when the list is truthy, and
otherwise call the error widget with the fixed message. Iterating a truthy
value that is not a list, or mapping a malformed record, raises inside the
try and lands in the except arm. -/
def commentsHandler (data : Json) : View :=
  let comments := safe_get data [JKey.s "data", JKey.s "comments"] (Json.arr [])
  if pyTruthy comments then
    match comments with
    | Json.arr cs =>
      match mapRows commentRow cs with
      | some rows => View.table rows
      | none => View.exn
    | _ => View.exn
  else View.err (Json.str "No comments found or invalid URL.")

/-- The user posts tab response handling, app.py lines 95 to 107: extract
the post list with safe_get, build the table when the list is truthy, and
otherwise call the warning widget with the fixed message. -/
def postsHandler (data : Json) : View :=
  let posts := safe_get data [JKey.s "data", JKey.s "posts"] (Json.arr [])
  if pyTruthy posts then
    match posts with
    | Json.arr ps =>
      match mapRows userPostRow ps with
      | some rows => View.table rows
      | none => View.exn
    | _ => View.exn
  else View.warn "No posts found for this user."

/-- The analytics tab response handling, app.py lines 120 to 156: a falsy
success field goes to the error widget with the error field of the payload
or the fixed fallback; otherwise the summary is reshaped into the three
metrics, the top commenters table, and either the bar chart over the
histogram items or the no data warning when the histogram is falsy. A
payload that makes a method call raise lands in the except arm. -/
def analyticsHandler : Json → View
  | Json.obj kvs =>
    if pyTruthy (dictGet kvs "success" Json.null) then
      match dictGet kvs "summary" (Json.obj []) with
      | Json.obj skvs =>
        match asRoundable (dictGet skvs "average_reactions" (Json.num 0)) with
        | some avg =>
          match dictGet skvs "top_commenters" (Json.arr []) with
          | Json.arr top =>
            let hist := dictGet skvs "reaction_histogram" (Json.obj [])
            if pyTruthy hist then
              match hist with
              | Json.obj hkvs =>
                View.analytics ⟨dictGet skvs "total_comments" (Json.num 0),
                  dictGet skvs "unique_commenters" (Json.num 0),
                  round2 avg, ⟨"Author", "Comments", top⟩,
                  HistSection.chart "Reactions" "Count" hkvs⟩
              | _ => View.exn
            else
              View.analytics ⟨dictGet skvs "total_comments" (Json.num 0),
                dictGet skvs "unique_commenters" (Json.num 0),
                round2 avg, ⟨"Author", "Comments", top⟩,
                HistSection.noData "No reaction data available to plot."⟩
          | _ => View.exn
        | none => View.exn
      | _ => View.exn
    else View.err (dictGet kvs "error" (Json.str "Failed to analyze comments"))
  | _ => View.exn

/-- The company tab response handling, app.py lines 169 to 196: a falsy
success field goes to the error widget with the error field of the payload
or the fixed fallback; otherwise the page fields are extracted from the
basic info, stats, media and headquarters sections. A section value on
which the dict method get raises lands in the except arm. -/
def companyHandler : Json → View
  | Json.obj kvs =>
    if pyTruthy (dictGet kvs "success" Json.null) then
      match safe_get (Json.obj kvs) [JKey.s "data", JKey.s "basic_info"] (Json.obj []),
          safe_get (Json.obj kvs) [JKey.s "data", JKey.s "stats"] (Json.obj []),
          safe_get (Json.obj kvs) [JKey.s "data", JKey.s "media"] (Json.obj []),
          safe_get (Json.obj kvs) [JKey.s "data", JKey.s "locations", JKey.s "headquarters"]
            (Json.obj []) with
      | Json.obj info, Json.obj stats, Json.obj media, Json.obj loc =>
        View.company ⟨dictGet media "logo_url" Json.null,
          dictGet info "name" (Json.str ""),
          dictGet info "description" (Json.str ""),
          dictGet info "website" (Json.str ""),
          dictGet info "linkedin_url" (Json.str "#"),
          dictGet stats "follower_count" (Json.num 0),
          dictGet stats "employee_count" (Json.num 0),
          dictGet loc "line1" (Json.str ""),
          dictGet loc "city" (Json.str ""),
          dictGet loc "state" (Json.str ""),
          dictGet loc "country" (Json.str ""),
          safe_get (Json.obj info) [JKey.s "industries"] (Json.arr [])⟩
      | _, _, _, _ => View.exn
    else View.err (dictGet kvs "error" (Json.str "Company data not found"))
  | _ => View.exn

/-- The company posts tab response handling, app.py lines 209 to 245: a
falsy success field goes to the error widget with the error field of the
payload or the fixed fallback; then the posts are read with chained dict
gets, a falsy post list goes to the warning widget, and a truthy list is
rendered as the table followed by the image loop. -/
def companyPostsHandler : Json → View
  | Json.obj kvs =>
    if pyTruthy (dictGet kvs "success" Json.null) then
      match dictGet kvs "data" (Json.obj []) with
      | Json.obj dkvs =>
        let posts := dictGet dkvs "posts" (Json.arr [])
        if pyTruthy posts then
          match posts with
          | Json.arr ps =>
            match mapRows companyPostRow ps with
            | some rows => View.companyPosts rows (shownImages ps)
            | none => View.exn
          | _ => View.exn
        else View.warn "No recent posts found for this company."
      | _ => View.exn
    else View.err (dictGet kvs "error" (Json.str "No posts found"))
  | _ => View.exn

/-- What pressing the fetch button of a tab does: either issue the HTTP GET
with the given query parameters, or show a validation warning and issue
nothing. -/
inductive FetchAction where
  | request (endpoint : String) (params : List (String × String))
  | blockedWarn (msg : String)

/-- The comments tab button, app.py lines 40 to 62: a truthy, that is
non-empty, input issues the request, an empty input shows the warning. -/
def commentsTrigger (post_url : String) : FetchAction :=
  if post_url = "" then FetchAction.blockedWarn "Please enter a LinkedIn post URL."
  else FetchAction.request "/comments" [("post_url", post_url)]

/-- The profile tab button, app.py lines 69 to 72: the request is issued
unconditionally. -/
def profileTrigger (username : String) : FetchAction :=
  FetchAction.request "/profile" [("username", username)]

/-- The user posts tab button, app.py lines 91 to 94: the request is issued
unconditionally. -/
def postsTrigger (username : String) : FetchAction :=
  FetchAction.request "/posts" [("username", username)]

/-- The analytics tab button, app.py lines 116 to 119: the request is
issued unconditionally, with no emptiness check on the input. -/
def analyticsTrigger (post_url : String) : FetchAction :=
  FetchAction.request "/analytics/comments" [("post_url", post_url)]

/-- The company tab button, app.py lines 165 to 168: the request is issued
unconditionally. -/
def companyTrigger (identifier : String) : FetchAction :=
  FetchAction.request "/company" [("identifier", identifier)]

/-- The company posts tab button, app.py lines 205 to 208: the request is
issued unconditionally. -/
def companyPostsTrigger (company_name : String) : FetchAction :=
  FetchAction.request "/company/posts" [("company_name", company_name)]

/-- A company post carrying one media item with a url, the shape the Image
column and the image loop are written for. -/
def c2Post : Json :=
  Json.obj [("text", Json.str "launch"),
    ("media", Json.obj [("items",
      Json.arr [Json.obj [("url", Json.str "http://img.example/a.png")]])])]

/-- A successful company posts payload holding the single post above. -/
def c2Payload : Json :=
  Json.obj [("success", Json.bool true),
    ("data", Json.obj [("posts", Json.arr [c2Post])])]

/-- The row the code builds for the post above: every stat defaults and the
Image cell is the safe_get default, the empty string. -/
def c2Row : Row :=
  [("Date", Json.str ""), ("Author", Json.str ""), ("Text", Json.str "launch..."),
    ("Reactions", Json.num 0), ("Comments", Json.num 0), ("Reposts", Json.num 0),
    ("Post URL", Json.str ""), ("Image", Json.str "")]

/-- A comments payload whose success field is false but whose comment list
is non-empty. -/
def c4Payload : Json :=
  Json.obj [("success", Json.bool false),
    ("data", Json.obj [("comments", Json.arr [Json.obj [("text", Json.str "x")]])])]

/-- The row the comments tab builds from the payload above. -/
def c4Row : Row :=
  [("Author", Json.str ""), ("Comment", Json.str "x"), ("Reactions", Json.num 0),
    ("Replies", Json.num 0), ("Date", Json.str "")]

/-- The comment record of end to end example 1 of the spec. -/
def c8Comment : Json :=
  Json.obj [("author", Json.obj [("name", Json.str "A")]),
    ("text", Json.str "hi"),
    ("stats", Json.obj [("total_reactions", Json.num 3)]),
    ("replies", Json.arr [Json.num 1, Json.num 2])]

/-- The comments payload of end to end example 1 of the spec. -/
def c8Payload : Json :=
  Json.obj [("data", Json.obj [("comments", Json.arr [c8Comment])])]

/-- The row the spec expects for end to end example 1. -/
def c8Row : Row :=
  [("Author", Json.str "A"), ("Comment", Json.str "hi"), ("Reactions", Json.num 3),
    ("Replies", Json.num 2), ("Date", Json.str "")]

/-- An analytics payload whose histogram is the empty dict, end to end
example 3 of the spec. -/
def c9Payload : Json :=
  Json.obj [("success", Json.bool true),
    ("summary", Json.obj [("total_comments", Json.num 5),
      ("unique_commenters", Json.num 4),
      ("average_reactions", Json.num 2),
      ("top_commenters", Json.arr [Json.arr [Json.str "A", Json.num 3]]),
      ("reaction_histogram", Json.obj [])])]

theorem safe_get_eq_resolve (root : Json) (ks : List JKey) (dflt : Json) :
    safe_get root ks dflt = (resolve root ks).getD dflt := by
  induction ks generalizing root with
  | nil => rfl
  | cons k rest ih =>
    simp only [safe_get, resolve]
    cases jstep root k with
    | none => rfl
    | some v => exact ih v

theorem resolve_append (root : Json) (p q : List JKey) :
    resolve root (p ++ q) = (resolve root p).bind (fun v => resolve v q) := by
  induction p generalizing root with
  | nil => rfl
  | cons k rest ih =>
    simp only [List.cons_append, resolve]
    cases jstep root k with
    | none => rfl
    | some v => exact ih v

theorem jstep_int (d : Json) (n : Int) : jstep d (JKey.i n) = none := by
  cases d <;> rfl

theorem safe_get_int_segment (ks : List JKey) (d : Json) (n : Int) (ks2 : List JKey)
    (dflt : Json) : safe_get d (ks ++ JKey.i n :: ks2) dflt = dflt := by
  induction ks generalizing d with
  | nil => simp only [List.nil_append, safe_get, jstep_int]
  | cons k rest ih =>
    simp only [List.cons_append, safe_get]
    cases h : jstep d k with
    | none => rfl
    | some v => exact ih v

theorem lookupKey_cons_ne (k1 k : String) (v : Json) (kvs : List (String × Json))
    (h : k1 ≠ k) : lookupKey ((k1, v) :: kvs) k = lookupKey kvs k := by
  simp [lookupKey, h]

theorem asString_toList (s : String) : s.toList.asString = s := by
  cases s
  rfl

/-- Claim C10: safe_get applied to an empty segment list returns the root
value itself, unchanged, for every root and every default: the loop body
never runs and the final return hands back the current value. -/
theorem safe_get_nil (root dflt : Json) : safe_get root [] dflt = root := rfl

/-- Claim C7: safe_get is a total function of the embedding, and once the
first failing segment is reached, at depth equal to the length of the
resolved prefix, the result is the default whatever segments follow: the
hypotheses say the prefix resolves to v and the next segment fails at v,
and the conclusion holds for every continuation of the path. -/
theorem safe_get_default_past_first_failure
    (root : Json) (pre : List JKey) (v : Json) (key : JKey) (dflt : Json)
    (hpre : resolve root pre = some v) (hfail : jstep v key = none) :
    ∀ rest : List JKey, safe_get root (pre ++ key :: rest) dflt = dflt := by
  intro rest
  rw [safe_get_eq_resolve, resolve_append, hpre]
  show (resolve v (key :: rest)).getD dflt = dflt
  simp only [resolve, hfail]
  rfl

/-- Witness for C7 at a concrete input: the object with the single key a
resolves the empty prefix to itself, the segment b fails there, and the
whole path b, x falls back to the default. -/
theorem safe_get_default_past_first_failure_spotcheck :
    resolve (Json.obj [("a", Json.num 1)]) [] = some (Json.obj [("a", Json.num 1)]) ∧
    jstep (Json.obj [("a", Json.num 1)]) (JKey.s "b") = none ∧
    safe_get (Json.obj [("a", Json.num 1)]) [JKey.s "b", JKey.s "x"] (Json.num 5) = Json.num 5 :=
  ⟨rfl, rfl,
    safe_get_default_past_first_failure (Json.obj [("a", Json.num 1)]) []
      (Json.obj [("a", Json.num 1)]) (JKey.s "b") (Json.num 5) rfl rfl [JKey.s "x"]⟩

/-- Counterexample to claim C1: the claim says a fully present path that
indexes into a sequence returns the exact leaf, but safe_get applied to the
one-element sequence holding 42, the path consisting of index 0, and the
default 7 returns the default 7, not the leaf 42, because the isinstance
dict test rejects every sequence. -/
theorem safe_get_sequence_index_unsupported :
    safe_get (Json.arr [Json.num 42]) [JKey.i 0] (Json.num 7) = Json.num 7 ∧
    Json.num 7 ≠ Json.num 42 := by
  refine ⟨rfl, ?_⟩
  intro h
  injection h with h
  norm_num at h

/-- Claim C1 as amended: safe_get descends only through mappings. A mapping
containing the next string key descends to the value; any failing step,
including every sequence and every integer segment, returns the default
immediately; and a path that fully resolves through mappings returns the
exact leaf value. -/
theorem safe_get_descends_mappings_only :
    (∀ kvs k ks dflt v, lookupKey kvs k = some v →
      safe_get (Json.obj kvs) (JKey.s k :: ks) dflt = safe_get v ks dflt) ∧
    (∀ d key ks dflt, jstep d key = none → safe_get d (key :: ks) dflt = dflt) ∧
    (∀ xs key ks dflt, safe_get (Json.arr xs) (key :: ks) dflt = dflt) ∧
    (∀ d n ks dflt, safe_get d (JKey.i n :: ks) dflt = dflt) ∧
    (∀ root ks v dflt, resolve root ks = some v → safe_get root ks dflt = v) := by
  refine ⟨?_, ?_, ?_, ?_, ?_⟩
  · intro kvs k ks dflt v hv
    simp only [safe_get, jstep, hv]
  · intro d key ks dflt hfail
    simp only [safe_get, hfail]
  · intro xs key ks dflt
    cases key <;> rfl
  · intro d n ks dflt
    cases d <;> rfl
  · intro root ks v dflt hv
    rw [safe_get_eq_resolve, hv]
    rfl

/-- Witness for the amended C1 at concrete inputs: a present mapping key
descends, and a fully resolving two-step path returns the exact leaf. -/
theorem safe_get_descends_mappings_only_spotcheck :
    safe_get (Json.obj [("a", Json.obj [("b", Json.num 3)])])
      [JKey.s "a", JKey.s "b"] (Json.num 0) = Json.num 3 ∧
    safe_get (Json.str "leafless") [JKey.s "a"] Json.null = Json.null :=
  ⟨safe_get_descends_mappings_only.2.2.2.2
      (Json.obj [("a", Json.obj [("b", Json.num 3)])])
      [JKey.s "a", JKey.s "b"] (Json.num 3) (Json.num 0) rfl,
    safe_get_descends_mappings_only.2.1 (Json.str "leafless") (JKey.s "a") [] Json.null rfl⟩

/-- Claim C2 against the code: the Image cell and the image loop read the
url through a path holding the integer segment 0, and safe_get returns the
default at every integer segment, so the Image cell is the default empty
string for every post, the image loop never shows an image, and in
particular the post carrying a media item with a url yields an empty Image
cell rather than that url. -/
theorem company_posts_image_never_extracted :
    (∀ p dflt, safe_get p imagePath dflt = dflt) ∧
    (∀ ps, shownImages ps = []) ∧
    companyPostsHandler c2Payload = View.companyPosts [c2Row] [] ∧
    Json.str "" ≠ Json.str "http://img.example/a.png" := by
  have hpath : ∀ (p dflt : Json), safe_get p imagePath dflt = dflt := fun p dflt =>
    safe_get_int_segment [JKey.s "media", JKey.s "items"] p 0 [JKey.s "url"] dflt
  refine ⟨hpath, ?_, rfl, ?_⟩
  · intro ps
    simp only [shownImages]
    rw [List.filterMap_eq_nil_iff]
    intro p _
    simp [hpath, pyTruthy]
  · intro h
    injection h with h
    exact absurd h (by decide)

/-- Counterexample to claim C3: the comments tab renders its empty result
case through the error widget, not a neutral notice; the payload whose
comment list is present but empty produces the error view, which is a
different widget call from the warning view with the same message. -/
theorem comments_empty_shows_error_widget :
    commentsHandler (Json.obj [("data", Json.obj [("comments", Json.arr [])])]) =
      View.err (Json.str "No comments found or invalid URL.") ∧
    View.err (Json.str "No comments found or invalid URL.") ≠
      View.warn "No comments found or invalid URL." := by
  refine ⟨rfl, ?_⟩
  intro h
  exact View.noConfusion h

/-- Claim C3 as amended: an absent or empty primary list never crashes and
never renders a silently empty table, but the notice style differs by
panel: the user posts and company posts tabs show the neutral warning
widget, while the comments tab shows the error widget. -/
theorem empty_primary_list_notices :
    (∀ data, pyTruthy (safe_get data [JKey.s "data", JKey.s "comments"] (Json.arr [])) = false →
      commentsHandler data = View.err (Json.str "No comments found or invalid URL.")) ∧
    (∀ data, pyTruthy (safe_get data [JKey.s "data", JKey.s "posts"] (Json.arr [])) = false →
      postsHandler data = View.warn "No posts found for this user.") ∧
    (∀ kvs dkvs, pyTruthy (dictGet kvs "success" Json.null) = true →
      dictGet kvs "data" (Json.obj []) = Json.obj dkvs →
      pyTruthy (dictGet dkvs "posts" (Json.arr [])) = false →
      companyPostsHandler (Json.obj kvs) = View.warn "No recent posts found for this company.") := by
  refine ⟨?_, ?_, ?_⟩
  · intro data h
    simp [commentsHandler, h]
  · intro data h
    simp [postsHandler, h]
  · intro kvs dkvs hs hd hp
    simp [companyPostsHandler, hs, hd, hp]

/-- Witness for the amended C3 at concrete inputs: an empty post list gives
the user posts warning, and a successful company payload with an empty post
list gives the company posts warning. -/
theorem empty_primary_list_notices_spotcheck :
    postsHandler (Json.obj [("data", Json.obj [("posts", Json.arr [])])]) =
      View.warn "No posts found for this user." ∧
    companyPostsHandler (Json.obj [("success", Json.bool true),
      ("data", Json.obj [("posts", Json.arr [])])]) =
      View.warn "No recent posts found for this company." :=
  ⟨empty_primary_list_notices.2.1 (Json.obj [("data", Json.obj [("posts", Json.arr [])])]) rfl,
    empty_primary_list_notices.2.2
      [("success", Json.bool true), ("data", Json.obj [("posts", Json.arr [])])]
      [("posts", Json.arr [])] rfl rfl rfl⟩

/-- Counterexample to claim C4: the comments tab never looks at the success
field, so the payload with success false and a non-empty comment list
renders a one row table instead of the Error state the claim requires. -/
theorem comments_tab_renders_despite_success_false :
    commentsHandler c4Payload = View.table [c4Row] ∧
    View.table [c4Row] ≠ View.err (Json.str "No comments found or invalid URL.") := by
  refine ⟨rfl, ?_⟩
  intro h
  exact View.noConfusion h

/-- Claim C4 as amended: only the analytics, company details and company
posts tabs check the success field; a falsy or absent success there yields
the error view carrying the error field of the payload or the fixed
domain fallback, and in particular the company payload with success false
and error not found yields the error view with not found; the comments tab
ignores the success field entirely, its view being invariant under adding
one. -/
theorem success_flag_checked_by_three_panels :
    (∀ kvs, pyTruthy (dictGet kvs "success" Json.null) = false →
      analyticsHandler (Json.obj kvs) =
        View.err (dictGet kvs "error" (Json.str "Failed to analyze comments"))) ∧
    (∀ kvs, pyTruthy (dictGet kvs "success" Json.null) = false →
      companyHandler (Json.obj kvs) =
        View.err (dictGet kvs "error" (Json.str "Company data not found"))) ∧
    (∀ kvs, pyTruthy (dictGet kvs "success" Json.null) = false →
      companyPostsHandler (Json.obj kvs) =
        View.err (dictGet kvs "error" (Json.str "No posts found"))) ∧
    (companyHandler (Json.obj [("success", Json.bool false), ("error", Json.str "not found")]) =
      View.err (Json.str "not found")) ∧
    (∀ v kvs, commentsHandler (Json.obj (("success", v) :: kvs)) =
      commentsHandler (Json.obj kvs)) := by
  refine ⟨?_, ?_, ?_, rfl, ?_⟩
  · intro kvs h
    simp [analyticsHandler, h]
  · intro kvs h
    simp [companyHandler, h]
  · intro kvs h
    simp [companyPostsHandler, h]
  · intro v kvs
    have h : safe_get (Json.obj (("success", v) :: kvs))
        [JKey.s "data", JKey.s "comments"] (Json.arr []) =
        safe_get (Json.obj kvs) [JKey.s "data", JKey.s "comments"] (Json.arr []) := by
      simp only [safe_get, jstep]
      rw [lookupKey_cons_ne "success" "data" v kvs (by decide)]
    simp only [commentsHandler, h]

/-- Witness for the amended C4 at concrete inputs: an analytics payload
with no success field falls back to the fixed analytics message, and a
company posts payload with success false and an error field surfaces that
field. -/
theorem success_flag_checked_by_three_panels_spotcheck :
    analyticsHandler (Json.obj []) = View.err (Json.str "Failed to analyze comments") ∧
    companyPostsHandler (Json.obj [("success", Json.bool false), ("error", Json.str "nope")]) =
      View.err (Json.str "nope") :=
  ⟨success_flag_checked_by_three_panels.1 [] rfl,
    success_flag_checked_by_three_panels.2.2.1
      [("success", Json.bool false), ("error", Json.str "nope")] rfl⟩

/-- Counterexample to claim C5: the claim says text shorter than 150
characters is displayed unchanged, but the user posts row for the post
whose text is hi shows hi followed by three dots, because the code appends
the marker unconditionally. -/
theorem short_text_still_gets_ellipsis :
    userPostRow (Json.obj [("text", Json.str "hi")]) =
      some [("Date", Json.str ""), ("Text", Json.str "hi..."),
        ("Reactions", Json.num 0), ("Comments", Json.num 0), ("URL", Json.str "")] ∧
    Json.str "hi..." ≠ Json.str "hi" := by
  refine ⟨rfl, ?_⟩
  intro h
  injection h with h
  exact absurd h (by decide)

/-- Claim C5 as amended: the displayed text is always the first 150
characters followed by the three dot marker; for source text of at least
150 characters this is exactly the truncated prefix plus the marker, as
the claim says, while text shorter than 150 characters is shown in full
but still with the marker appended, and both Text columns use this
function. -/
theorem text_truncation_appends_marker_always :
    (∀ s : String, pyTrunc s = (s.toList.take 150).asString ++ "...") ∧
    (∀ s : String, s.toList.length < 150 → pyTrunc s = s ++ "...") ∧
    (∀ kvs t, dictGet kvs "text" (Json.str "") = Json.str t →
      ∃ r, userPostRow (Json.obj kvs) = some r ∧
        getCol r "Text" = some (Json.str (pyTrunc t))) ∧
    (∀ kvs t, dictGet kvs "text" (Json.str "") = Json.str t →
      ∃ r, companyPostRow (Json.obj kvs) = some r ∧
        getCol r "Text" = some (Json.str (pyTrunc t))) := by
  refine ⟨fun s => rfl, ?_, ?_, ?_⟩
  · intro s h
    show (s.toList.take 150).asString ++ "..." = s ++ "..."
    rw [List.take_of_length_le (Nat.le_of_lt h), asString_toList]
  · intro kvs t h
    refine ⟨[("Date", safe_get (Json.obj kvs) [JKey.s "posted_at", JKey.s "date"] (Json.str "")),
      ("Text", Json.str (pyTrunc t)),
      ("Reactions", safe_get (Json.obj kvs) [JKey.s "stats", JKey.s "total_reactions"] (Json.num 0)),
      ("Comments", safe_get (Json.obj kvs) [JKey.s "stats", JKey.s "comments"] (Json.num 0)),
      ("URL", dictGet kvs "url" (Json.str ""))], ?_, rfl⟩
    simp only [userPostRow, h, asStr]
  · intro kvs t h
    refine ⟨[("Date", safe_get (Json.obj kvs) [JKey.s "posted_at", JKey.s "date"] (Json.str "")),
      ("Author", safe_get (Json.obj kvs) [JKey.s "author", JKey.s "name"] (Json.str "")),
      ("Text", Json.str (pyTrunc t)),
      ("Reactions", safe_get (Json.obj kvs) [JKey.s "stats", JKey.s "total_reactions"] (Json.num 0)),
      ("Comments", safe_get (Json.obj kvs) [JKey.s "stats", JKey.s "comments"] (Json.num 0)),
      ("Reposts", safe_get (Json.obj kvs) [JKey.s "stats", JKey.s "reposts"] (Json.num 0)),
      ("Post URL", dictGet kvs "post_url" (Json.str "")),
      ("Image", safe_get (Json.obj kvs) imagePath (Json.str ""))], ?_, rfl⟩
    simp only [companyPostRow, h, asStr]

/-- Witness for the amended C5 at concrete inputs: the two character text
hi is shown in full with the marker appended, and the user posts row for a
record carrying that text holds that Text cell. -/
theorem text_truncation_appends_marker_always_spotcheck :
    pyTrunc "hi" = "hi" ++ "..." ∧
    (∃ r, userPostRow (Json.obj [("text", Json.str "hi")]) = some r ∧
      getCol r "Text" = some (Json.str (pyTrunc "hi"))) :=
  ⟨text_truncation_appends_marker_always.2.1 "hi" (by decide),
    text_truncation_appends_marker_always.2.2.1 [("text", Json.str "hi")] "hi" rfl⟩

/-- Counterexample to claim C6: pressing the analytics button with the
empty input still issues the HTTP request, carrying the empty post url
parameter, instead of blocking with a validation warning. -/
theorem analytics_button_requests_on_empty_input :
    analyticsTrigger "" = FetchAction.request "/analytics/comments" [("post_url", "")] ∧
    FetchAction.request "/analytics/comments" [("post_url", "")] ≠
      FetchAction.blockedWarn "Please enter a LinkedIn post URL." := by
  refine ⟨rfl, ?_⟩
  intro h
  exact FetchAction.noConfusion h

/-- Claim C6 as amended: only the comments tab guards its input; an empty
post url there blocks the request and shows the validation warning, and a
non-empty one issues the request, while the five other tabs issue their
request unconditionally, whatever the input, empty included. -/
theorem only_comments_tab_guards_empty_input :
    (commentsTrigger "" = FetchAction.blockedWarn "Please enter a LinkedIn post URL.") ∧
    (∀ u, u ≠ "" → commentsTrigger u = FetchAction.request "/comments" [("post_url", u)]) ∧
    (∀ u, profileTrigger u = FetchAction.request "/profile" [("username", u)]) ∧
    (∀ u, postsTrigger u = FetchAction.request "/posts" [("username", u)]) ∧
    (∀ u, analyticsTrigger u = FetchAction.request "/analytics/comments" [("post_url", u)]) ∧
    (∀ u, companyTrigger u = FetchAction.request "/company" [("identifier", u)]) ∧
    (∀ u, companyPostsTrigger u = FetchAction.request "/company/posts" [("company_name", u)]) := by
  refine ⟨rfl, ?_, fun u => rfl, fun u => rfl, fun u => rfl, fun u => rfl, fun u => rfl⟩
  intro u hu
  simp [commentsTrigger, hu]

/-- Witness for the amended C6 at a concrete input: a non-empty post url
makes the comments button issue the request. -/
theorem only_comments_tab_guards_empty_input_spotcheck :
    commentsTrigger "https://linkedin.com/posts/1" =
      FetchAction.request "/comments" [("post_url", "https://linkedin.com/posts/1")] :=
  only_comments_tab_guards_empty_input.2.1 "https://linkedin.com/posts/1" (by decide)

/-- Claim C8: the comments mapper fills Author, Comment, Reactions,
Replies and Date from the documented paths with the documented defaults.
The example payload of the spec yields exactly one row with Author A,
Comment hi, Reactions 3, Replies 2 and the empty Date; a record with no
stats key gets Reactions 0; and the Replies cell is the length of the
replies list. -/
theorem comments_mapping_fields :
    commentsHandler c8Payload = View.table [c8Row] ∧
    (∀ kvs n, lookupKey kvs "stats" = none →
      pyLen (dictGet kvs "replies" (Json.arr [])) = some n →
      ∃ r, commentRow (Json.obj kvs) = some r ∧
        getCol r "Reactions" = some (Json.num 0) ∧
        getCol r "Replies" = some (Json.num (n : ℚ))) ∧
    (∀ kvs rs, dictGet kvs "replies" (Json.arr []) = Json.arr rs →
      ∃ r, commentRow (Json.obj kvs) = some r ∧
        getCol r "Replies" = some (Json.num (rs.length : ℚ))) := by
  refine ⟨rfl, ?_, ?_⟩
  · intro kvs n h1 h2
    have hre : safe_get (Json.obj kvs) [JKey.s "stats", JKey.s "total_reactions"]
        (Json.num 0) = Json.num 0 := by
      simp only [safe_get, jstep, h1]
    refine ⟨[("Author", safe_get (Json.obj kvs) [JKey.s "author", JKey.s "name"] (Json.str "")),
      ("Comment", dictGet kvs "text" (Json.str "")),
      ("Reactions", Json.num 0),
      ("Replies", Json.num (n : ℚ)),
      ("Date", safe_get (Json.obj kvs) [JKey.s "posted_at", JKey.s "date"] (Json.str ""))],
      ?_, rfl, rfl⟩
    simp only [commentRow, h2, hre]
  · intro kvs rs h
    refine ⟨[("Author", safe_get (Json.obj kvs) [JKey.s "author", JKey.s "name"] (Json.str "")),
      ("Comment", dictGet kvs "text" (Json.str "")),
      ("Reactions", safe_get (Json.obj kvs) [JKey.s "stats", JKey.s "total_reactions"] (Json.num 0)),
      ("Replies", Json.num (rs.length : ℚ)),
      ("Date", safe_get (Json.obj kvs) [JKey.s "posted_at", JKey.s "date"] (Json.str ""))],
      ?_, rfl⟩
    simp only [commentRow, h, pyLen]

/-- Witness for C8 at a concrete input: a comment with no stats key and no
replies key gets Reactions 0 and Replies 0. -/
theorem comments_mapping_fields_spotcheck :
    ∃ r, commentRow (Json.obj [("text", Json.str "y")]) = some r ∧
      getCol r "Reactions" = some (Json.num 0) ∧
      getCol r "Replies" = some (Json.num ((0 : Nat) : ℚ)) :=
  comments_mapping_fields.2.1 [("text", Json.str "y")] 0 rfl rfl

/-- Claim C9: on a successful analytics payload the summary is reshaped
for display: the average reactions metric is the payload value rounded to
two decimal places half to even, the top commenters list becomes the two
column Author and Comments table, and the reaction histogram becomes the
two column Reactions and Count bar chart when truthy; when the histogram
is empty the no data warning replaces the chart while the top commenters
table is still part of the view. -/
theorem analytics_summary_reshape (kvs skvs : List (String × Json)) (q : ℚ) (top : List Json)
    (hsucc : pyTruthy (dictGet kvs "success" Json.null) = true)
    (hsum : dictGet kvs "summary" (Json.obj []) = Json.obj skvs)
    (havg : dictGet skvs "average_reactions" (Json.num 0) = Json.num q)
    (htop : dictGet skvs "top_commenters" (Json.arr []) = Json.arr top) :
    (∀ hkvs, dictGet skvs "reaction_histogram" (Json.obj []) = Json.obj hkvs →
      pyTruthy (Json.obj hkvs) = true →
      analyticsHandler (Json.obj kvs) = View.analytics
        ⟨dictGet skvs "total_comments" (Json.num 0),
          dictGet skvs "unique_commenters" (Json.num 0),
          round2 q, ⟨"Author", "Comments", top⟩,
          HistSection.chart "Reactions" "Count" hkvs⟩) ∧
    (pyTruthy (dictGet skvs "reaction_histogram" (Json.obj [])) = false →
      analyticsHandler (Json.obj kvs) = View.analytics
        ⟨dictGet skvs "total_comments" (Json.num 0),
          dictGet skvs "unique_commenters" (Json.num 0),
          round2 q, ⟨"Author", "Comments", top⟩,
          HistSection.noData "No reaction data available to plot."⟩) := by
  constructor
  · intro hkvs hh ht
    simp [analyticsHandler, hsucc, hsum, havg, asRoundable, htop, hh, ht]
  · intro hh
    simp [analyticsHandler, hsucc, hsum, havg, asRoundable, htop, hh]

/-- Witness for C9 at the payload of end to end example 3: the empty
histogram yields the no data warning while the top commenters table is in
the view, with the metrics and the rounded average. -/
theorem analytics_summary_reshape_spotcheck :
    analyticsHandler c9Payload = View.analytics
      ⟨Json.num 5, Json.num 4, round2 2,
        ⟨"Author", "Comments", [Json.arr [Json.str "A", Json.num 3]]⟩,
        HistSection.noData "No reaction data available to plot."⟩ :=
  (analytics_summary_reshape
    [("success", Json.bool true),
      ("summary", Json.obj [("total_comments", Json.num 5),
        ("unique_commenters", Json.num 4),
        ("average_reactions", Json.num 2),
        ("top_commenters", Json.arr [Json.arr [Json.str "A", Json.num 3]]),
        ("reaction_histogram", Json.obj [])])]
    [("total_comments", Json.num 5),
      ("unique_commenters", Json.num 4),
      ("average_reactions", Json.num 2),
      ("top_commenters", Json.arr [Json.arr [Json.str "A", Json.num 3]]),
      ("reaction_histogram", Json.obj [])]
    2 [Json.arr [Json.str "A", Json.num 3]] rfl rfl rfl rfl).2 rfl
